import Mathlib

/-!
Shallow embedding of the quality-scoring and geospatial recommendation
engine of the university Wi-Fi monitoring system
(src/src/analytics/recommendation_engine.py), together with theorems
settling the specification claims about it.

Numbers are modelled as exact rationals (scores, coordinates) and reals
(haversine distances, which involve trigonometric functions).  Python
`round(x, 2)` is modelled as round-half-to-even on rationals.  Python
`a or b` on optional numeric fields is modelled by `pyOr`: it yields the
default both when the field is absent and when its value is 0 (falsy).
-/

namespace WifiMonitor

/-! ## Data model

`access_points` rows and `performance_metrics` rows of the SQLite
database, as read by the engine.  Optional columns are `Option ℚ`.
-/

structure AccessPoint where
  id : ℤ
  ap_name : String
  building : String
  floor : ℤ
  room_number : String
  latitude : Option ℚ
  longitude : Option ℚ
deriving DecidableEq, Repr

structure MetricRow where
  ap_id : ℤ
  download_speed : Option ℚ
  upload_speed : Option ℚ
  latency : Option ℚ
  connected_users : Option ℚ
  signal_strength : Option ℚ
  timestamp : ℤ
deriving DecidableEq, Repr

/-- The performance fields of one joined row, as consumed by
`calculate_quality_score` via `data.get(...)`. -/
structure MetricData where
  download_speed : Option ℚ
  upload_speed : Option ℚ
  latency : Option ℚ
  connected_users : Option ℚ
  signal_strength : Option ℚ
deriving DecidableEq, Repr

structure DB where
  access_points : List AccessPoint
  performance_metrics : List MetricRow

/-- Python `v or d` for an optional numeric value `v`: the default is used
both when the field is absent (`None`) and when it is 0 (falsy). -/
def pyOr (v : Option ℚ) (d : ℚ) : ℚ :=
  match v with
  | none => d
  | some x => if x = 0 then d else x

/-! ## Rounding

Python `round` uses round-half-to-even. -/

def roundHalfEven (x : ℚ) : ℤ :=
  if x - ⌊x⌋ < 1 / 2 then ⌊x⌋
  else if 1 / 2 < x - ⌊x⌋ then ⌊x⌋ + 1
  else if Even ⌊x⌋ then ⌊x⌋ else ⌊x⌋ + 1

/-- Python `round(x, 2)` on rationals. -/
def round2 (x : ℚ) : ℚ := (roundHalfEven (x * 100) : ℚ) / 100

/-! ## Quality scorer (`calculate_quality_score`, `get_status_from_score`)

In the source, `latency = data.get('latency') or float('inf')`; the
infinite default makes `min(latency * 1000, 1000) = 1000` and hence
`norm_latency = 0`, which is how the absent (or 0, falsy) latency case is
rendered below without an infinity.
-/

def calculate_quality_score (data : MetricData) : ℚ :=
  let download_speed := pyOr data.download_speed 0
  let upload_speed := pyOr data.upload_speed 0
  let connected_users := pyOr data.connected_users 0
  let signal_strength := pyOr data.signal_strength (-80)
  let norm_download := min (download_speed / 100 * 100) 100
  let norm_upload := min (upload_speed / 50 * 100) 100
  let norm_latency : ℚ :=
    match data.latency with
    | none => 0
    | some l => if l = 0 then 0 else max ((1000 - min (l * 1000) 1000) / 10) 0
  let norm_users := max (100 - min connected_users 50 * (3 / 2)) 0
  let norm_signal := max 0 (min 100 (130 + signal_strength))
  round2 (35 / 100 * norm_download + 15 / 100 * norm_upload + 2 / 10 * norm_latency
    + 2 / 10 * norm_users + 1 / 10 * norm_signal)

def get_status_from_score (score : ℚ) : String :=
  if score ≥ 80 then "Excellent"
  else if score ≥ 60 then "Good"
  else if score ≥ 40 then "Medium"
  else "Poor"

/-- The all-absent metric data (an access point with no metric row). -/
def noData : MetricData := ⟨none, none, none, none, none⟩

/-! ## Haversine distance (`haversine_distance`)

Coordinates come in as decimal degrees (rationals); the distance is a
real number.  Earth radius 6371000 m, exactly as in the source. -/

noncomputable def haversine_distance (lat1 lon1 lat2 lon2 : ℚ) : ℝ :=
  let lat1r : ℝ := (lat1 : ℝ) * Real.pi / 180
  let lon1r : ℝ := (lon1 : ℝ) * Real.pi / 180
  let lat2r : ℝ := (lat2 : ℝ) * Real.pi / 180
  let lon2r : ℝ := (lon2 : ℝ) * Real.pi / 180
  let dlat := lat2r - lat1r
  let dlon := lon2r - lon1r
  let a := Real.sin (dlat / 2) ^ 2 + Real.cos lat1r * Real.cos lat2r * Real.sin (dlon / 2) ^ 2
  let c := 2 * Real.arcsin (Real.sqrt a)
  c * 6371000

/-- Python `round(x, 2)` on the real-valued distance. -/
noncomputable def roundHalfEvenR (x : ℝ) : ℤ :=
  if x - ⌊x⌋ < 1 / 2 then ⌊x⌋
  else if 1 / 2 < x - ⌊x⌋ then ⌊x⌋ + 1
  else if Even ⌊x⌋ then ⌊x⌋ else ⌊x⌋ + 1

noncomputable def round2R (x : ℝ) : ℝ := (roundHalfEvenR (x * 100) : ℝ) / 100

/-! ## The SQL query shared by `get_nearby_access_points` and
`get_current_ap_status`

Both functions run the same SELECT: every access point with non-NULL
latitude and longitude, LEFT JOINed with its latest `performance_metrics`
row (the row whose timestamp is maximal for that `ap_id`; the model keeps
the first such row in table order when several share the maximal
timestamp).  An access point with no metric rows still appears, with all
performance columns NULL. -/

structure JoinedRow where
  ap : AccessPoint
  latitude : ℚ
  longitude : ℚ
  metric : Option MetricRow
deriving DecidableEq, Repr

def maxTimestampRow (ms : List MetricRow) : Option MetricRow :=
  ms.foldl
    (fun best m =>
      match best with
      | none => some m
      | some b => if b.timestamp < m.timestamp then some m else some b)
    none

def latestMetric (metrics : List MetricRow) (apId : ℤ) : Option MetricRow :=
  maxTimestampRow (metrics.filter (fun m => m.ap_id = apId))

def locatedRows (db : DB) : List JoinedRow :=
  db.access_points.filterMap (fun ap =>
    match ap.latitude, ap.longitude with
    | some la, some lo => some ⟨ap, la, lo, latestMetric db.performance_metrics ap.id⟩
    | _, _ => none)

/-- Performance columns of one joined row as seen by the scorer
(`ap_dict` keys `download_speed` .. `signal_strength`). -/
def rowData (m : Option MetricRow) : MetricData :=
  match m with
  | none => noData
  | some r => ⟨r.download_speed, r.upload_speed, r.latency, r.connected_users, r.signal_strength⟩

/-! ## Scored candidates -/

/-- A joined row enriched with `distance`, `quality_score` and `status`,
as appended to `nearby_aps` or returned by `get_current_ap_status`. -/
structure ScoredCandidate where
  ap : AccessPoint
  latitude : ℚ
  longitude : ℚ
  data : MetricData
  distance : ℝ
  quality_score : ℚ
  status : String

noncomputable def mkCandidate (r : JoinedRow) (d : ℝ) : ScoredCandidate :=
  { ap := r.ap
    latitude := r.latitude
    longitude := r.longitude
    data := rowData r.metric
    distance := round2R d
    quality_score := calculate_quality_score (rowData r.metric)
    status := get_status_from_score (calculate_quality_score (rowData r.metric)) }

/-! ## Geospatial filter (`get_nearby_access_points`)

The Python truthiness test `if ap_dict['latitude'] and ap_dict['longitude']`
passes only when both values are non-NULL (already guaranteed by the SQL
WHERE clause) and nonzero.  The final `nearby_aps.sort(key=..., reverse=True)`
is a stable descending sort by quality score, i.e. insertion sort with the
relation `b.quality_score ≤ a.quality_score`. -/

noncomputable def get_nearby_access_points (db : DB) (user_lat user_lon : ℚ)
    (radius : ℚ := 1000) : List ScoredCandidate :=
  let nearby_aps := (locatedRows db).filterMap (fun r =>
    if r.latitude ≠ 0 ∧ r.longitude ≠ 0 then
      let distance := haversine_distance user_lat user_lon r.latitude r.longitude
      if distance ≤ (radius : ℝ) then some (mkCandidate r distance) else none
    else none)
  List.insertionSort (fun a b => b.quality_score ≤ a.quality_score) nearby_aps

/-! ## Current-location resolver (`get_current_ap_status`)

`ORDER BY ABS(ap.latitude - ?) + ABS(ap.longitude - ?) LIMIT 1`: the single
row minimizing Manhattan distance in degree space (first such row in table
order on ties). -/

def manhattan (user_lat user_lon : ℚ) (r : JoinedRow) : ℚ :=
  |r.latitude - user_lat| + |r.longitude - user_lon|

def argminFrom (user_lat user_lon : ℚ) (cur : JoinedRow) : List JoinedRow → JoinedRow
  | [] => cur
  | r :: rs =>
    argminFrom user_lat user_lon
      (if manhattan user_lat user_lon r < manhattan user_lat user_lon cur then r else cur) rs

def argminManhattan (user_lat user_lon : ℚ) : List JoinedRow → Option JoinedRow
  | [] => none
  | r :: rs => some (argminFrom user_lat user_lon r rs)

noncomputable def get_current_ap_status (db : DB) (user_lat user_lon : ℚ)
    (radius : ℚ := 50) : Option ScoredCandidate :=
  match argminManhattan user_lat user_lon (locatedRows db) with
  | none => none
  | some r =>
    if r.latitude ≠ 0 ∧ r.longitude ≠ 0 then
      let distance := haversine_distance user_lat user_lon r.latitude r.longitude
      if distance ≤ (radius : ℝ) then some (mkCandidate r distance) else none
    else none

/-! ## Advisory message (`_generate_advice_message`)

The message is an f-string in the source; the model keeps the decision
structure and every value interpolated into the text, dropping only the
fixed English template around them. -/

inductive AdviceMessage where
  | couldNotDetect
  | poorBest (status building : String) (floor : ℤ) (ap_name : String) (download : ℚ)
  | poorNoOptions (status : String)
  | betterAt (status building : String) (floor : ℤ) (ap_name : String)
  | amongBest (status : String)
  | likelyBest (status : String)
  | enjoyFast (status : String)
deriving DecidableEq

def generate_advice_message (current_ap : Option ScoredCandidate)
    (recommendations : List ScoredCandidate) : AdviceMessage :=
  match current_ap with
  | none => .couldNotDetect
  | some cur =>
    let current_score := cur.quality_score
    let current_status := cur.status
    if current_score < 40 then
      match recommendations with
      | best :: _ =>
        .poorBest current_status best.ap.building best.ap.floor best.ap.ap_name
          (pyOr best.data.download_speed 0)
      | [] => .poorNoOptions current_status
    else if current_score < 60 then
      match recommendations with
      | best :: _ =>
        if best.quality_score > current_score then
          .betterAt current_status best.ap.building best.ap.floor best.ap.ap_name
        else .amongBest current_status
      | [] => .likelyBest current_status
    else .enjoyFast current_status

/-! ## Recommendation composer (`generate_recommendations`)

`nearby_aps[:num_recommendations]` is a Python slice: a negative bound
counts from the end of the list. -/

def pySlice (n : ℤ) (l : List ScoredCandidate) : List ScoredCandidate :=
  if 0 ≤ n then l.take n.toNat else l.take (l.length - (-n).toNat)

structure RecommendationSummary where
  user_latitude : ℚ
  user_longitude : ℚ
  current_ap : Option ScoredCandidate
  recommendations : List ScoredCandidate
  total_nearby_aps : ℕ
  message : AdviceMessage

noncomputable def generate_recommendations (db : DB) (user_lat user_lon : ℚ)
    (radius : ℚ := 1000) (num_recommendations : ℤ := 5) : RecommendationSummary :=
  let current_ap := get_current_ap_status db user_lat user_lon
  let nearby0 := get_nearby_access_points db user_lat user_lon radius
  let nearby_aps :=
    match current_ap with
    | none => nearby0
    | some cur => nearby0.filter (fun ap => ap.ap.id ≠ cur.ap.id)
  let recommendations := pySlice num_recommendations nearby_aps
  { user_latitude := user_lat
    user_longitude := user_lon
    current_ap := current_ap
    recommendations := recommendations
    total_nearby_aps := nearby_aps.length
    message := generate_advice_message current_ap recommendations }

/-! ## Sample data for concrete evaluations -/

/-- The all-defaults input record of the spec example:
download 0, upload 0, latency absent, connected users 0, signal absent. -/
def defaultsRecord : MetricData := ⟨some 0, some 0, none, some 0, none⟩

def emptyDB : DB := ⟨[], []⟩

/-- A located access point with no performance metrics at all. -/
def apA : AccessPoint := ⟨1, "AP-A", "Library", 2, "L201", some 2, some 3⟩

def dbNoMetrics : DB := ⟨[apA], []⟩

def rowA : JoinedRow := ⟨apA, 2, 3, none⟩

/-- An arbitrary scored candidate with a Poor score, for exercising the
advice decision table. -/
def candPoor : ScoredCandidate := ⟨apA, 2, 3, noData, 0, 35, "Poor"⟩

/-- An arbitrary scored candidate with a Good score and 80 Mbps download. -/
def candGood : ScoredCandidate := ⟨apA, 2, 3, ⟨some 80, none, none, none, none⟩, 0, 70, "Good"⟩

/-! ## Helper lemmas -/

theorem score_noData : calculate_quality_score noData = 25 := by
  norm_num [calculate_quality_score, pyOr, noData, round2, roundHalfEven]

theorem haversine_distance_self (la lo : ℚ) : haversine_distance la lo la lo = 0 := by
  unfold haversine_distance
  simp

theorem haversine_distance_nonneg (a b c d : ℚ) : 0 ≤ haversine_distance a b c d := by
  unfold haversine_distance
  have h1 : (0 : ℝ) ≤ Real.arcsin (Real.sqrt (Real.sin ((((c : ℝ) * Real.pi / 180) - ((a : ℝ) * Real.pi / 180)) / 2) ^ 2 + Real.cos ((a : ℝ) * Real.pi / 180) * Real.cos ((c : ℝ) * Real.pi / 180) * Real.sin ((((d : ℝ) * Real.pi / 180) - ((b : ℝ) * Real.pi / 180)) / 2) ^ 2)) :=
    Real.arcsin_nonneg.mpr (Real.sqrt_nonneg _)
  positivity

theorem roundHalfEven_ge_floor (x : ℚ) : ⌊x⌋ ≤ roundHalfEven x := by
  unfold roundHalfEven
  split_ifs <;> omega

theorem roundHalfEven_le_floor_add_one (x : ℚ) : roundHalfEven x ≤ ⌊x⌋ + 1 := by
  unfold roundHalfEven
  split_ifs <;> omega

theorem roundHalfEven_le_ceil (x : ℚ) : roundHalfEven x ≤ ⌈x⌉ := by
  have hfc : ⌊x⌋ ≤ ⌈x⌉ := Int.floor_le_ceil x
  unfold roundHalfEven
  split_ifs with h1 h2
  · exact hfc
  · have hx : ((⌊x⌋ : ℚ)) < x := by linarith
    have : ⌊x⌋ < ⌈x⌉ := Int.lt_ceil.mpr hx
    omega
  all_goals
  · have hx : ((⌊x⌋ : ℚ)) < x := by linarith
    have : ⌊x⌋ < ⌈x⌉ := Int.lt_ceil.mpr hx
    omega

theorem roundHalfEven_mono {x y : ℚ} (h : x ≤ y) : roundHalfEven x ≤ roundHalfEven y := by
  rcases lt_or_le ⌊x⌋ ⌊y⌋ with hf | hf
  · have h1 := roundHalfEven_le_floor_add_one x
    have h2 := roundHalfEven_ge_floor y
    omega
  · have hfl : ⌊x⌋ = ⌊y⌋ := le_antisymm (Int.floor_le_floor h) hf
    have hx : ((⌊x⌋ : ℚ)) ≤ x := Int.floor_le x
    have hy : ((⌊y⌋ : ℚ)) ≤ y := Int.floor_le y
    have hfrac : x - ⌊x⌋ ≤ y - ⌊y⌋ := by
      rw [hfl]
      linarith
    unfold roundHalfEven
    rw [hfl]
    rw [hfl] at hfrac
    split_ifs <;> first | omega | linarith

theorem round2_mono {x y : ℚ} (h : x ≤ y) : round2 x ≤ round2 y := by
  unfold round2
  have := roundHalfEven_mono (mul_le_mul_of_nonneg_right h (by norm_num : (0:ℚ) ≤ 100))
  have hcast : ((roundHalfEven (x * 100) : ℚ)) ≤ (roundHalfEven (y * 100) : ℚ) :=
    Int.cast_le.mpr this
  linarith

theorem round2_nonneg {x : ℚ} (h : 0 ≤ x) : 0 ≤ round2 x := by
  unfold round2
  have h1 : (0 : ℤ) ≤ ⌊x * 100⌋ := Int.floor_nonneg.mpr (by positivity)
  have h2 := roundHalfEven_ge_floor (x * 100)
  have : (0 : ℤ) ≤ roundHalfEven (x * 100) := le_trans h1 h2
  have hcast : ((0 : ℚ)) ≤ (roundHalfEven (x * 100) : ℚ) := Int.cast_nonneg.mpr this
  linarith

theorem round2_le_100 {x : ℚ} (h : x ≤ 100) : round2 x ≤ 100 := by
  unfold round2
  have h1 : x * 100 ≤ 10000 := by linarith
  have h2 : ⌈x * 100⌉ ≤ (10000 : ℤ) := Int.ceil_le.mpr (by exact_mod_cast h1)
  have h3 := roundHalfEven_le_ceil (x * 100)
  have : roundHalfEven (x * 100) ≤ (10000 : ℤ) := le_trans h3 h2
  have hcast : ((roundHalfEven (x * 100) : ℚ)) ≤ (10000 : ℚ) := by exact_mod_cast this
  linarith

theorem mem_locatedRows {db : DB} {r : JoinedRow} (h : r ∈ locatedRows db) :
    r.ap ∈ db.access_points ∧ r.ap.latitude = some r.latitude ∧
      r.ap.longitude = some r.longitude ∧
      r.metric = latestMetric db.performance_metrics r.ap.id := by
  unfold locatedRows at h
  rw [List.mem_filterMap] at h
  obtain ⟨ap, hap, hsome⟩ := h
  cases hla : ap.latitude with
  | none => rw [hla] at hsome; simp at hsome
  | some la =>
    cases hlo : ap.longitude with
    | none => rw [hla, hlo] at hsome; simp at hsome
    | some lo =>
      rw [hla, hlo] at hsome
      simp only [Option.some.injEq] at hsome
      subst hsome
      exact ⟨hap, hla, hlo, rfl⟩

theorem locatedRows_mem {db : DB} {ap : AccessPoint} {la lo : ℚ}
    (hap : ap ∈ db.access_points) (hla : ap.latitude = some la)
    (hlo : ap.longitude = some lo) :
    (⟨ap, la, lo, latestMetric db.performance_metrics ap.id⟩ : JoinedRow) ∈ locatedRows db := by
  unfold locatedRows
  rw [List.mem_filterMap]
  exact ⟨ap, hap, by rw [hla, hlo]⟩

/-- Characterization of membership in the nearby list: exactly the joined
rows with truthy coordinates whose haversine distance is within the
radius, each turned into a scored candidate. -/
theorem mem_nearby_iff {db : DB} {user_lat user_lon radius : ℚ} {c : ScoredCandidate} :
    c ∈ get_nearby_access_points db user_lat user_lon radius ↔
      ∃ r ∈ locatedRows db, r.latitude ≠ 0 ∧ r.longitude ≠ 0 ∧
        haversine_distance user_lat user_lon r.latitude r.longitude ≤ (radius : ℝ) ∧
        c = mkCandidate r (haversine_distance user_lat user_lon r.latitude r.longitude) := by
  unfold get_nearby_access_points
  rw [List.mem_insertionSort, List.mem_filterMap]
  constructor
  · rintro ⟨r, hr, hsome⟩
    by_cases h1 : r.latitude ≠ 0 ∧ r.longitude ≠ 0
    · rw [if_pos h1] at hsome
      by_cases h2 :
          haversine_distance user_lat user_lon r.latitude r.longitude ≤ (radius : ℝ)
      · rw [if_pos h2] at hsome
        simp only [Option.some.injEq] at hsome
        exact ⟨r, hr, h1.1, h1.2, h2, hsome.symm⟩
      · rw [if_neg h2] at hsome
        simp at hsome
    · rw [if_neg h1] at hsome
      simp at hsome
  · rintro ⟨r, hr, hla, hlo, hd, hc⟩
    refine ⟨r, hr, ?_⟩
    rw [if_pos ⟨hla, hlo⟩, if_pos hd, hc]

theorem argminFrom_spec (u v : ℚ) :
    ∀ (l : List JoinedRow) (cur : JoinedRow),
      argminFrom u v cur l ∈ cur :: l ∧
        ∀ x ∈ cur :: l, manhattan u v (argminFrom u v cur l) ≤ manhattan u v x := by
  intro l
  induction l with
  | nil =>
    intro cur
    refine ⟨by simp [argminFrom], ?_⟩
    intro x hx
    simp only [List.mem_singleton] at hx
    subst hx
    simp [argminFrom]
  | cons r rs ih =>
    intro cur
    by_cases hrc : manhattan u v r < manhattan u v cur
    · have h := ih r
      constructor
      · simp only [argminFrom, if_pos hrc]
        rcases List.mem_cons.mp h.1 with heq | hmem2
        · rw [heq]; simp
        · simp [hmem2]
      · intro x hx
        simp only [argminFrom, if_pos hrc]
        rcases List.mem_cons.mp hx with hxc | hx2
        · subst hxc
          exact le_trans (h.2 _ (List.mem_cons_self _ _)) (le_of_lt hrc)
        · exact h.2 _ hx2
    · have h := ih cur
      constructor
      · simp only [argminFrom, if_neg hrc]
        rcases List.mem_cons.mp h.1 with heq | hmem2
        · rw [heq]; simp
        · simp [hmem2]
      · intro x hx
        simp only [argminFrom, if_neg hrc]
        rcases List.mem_cons.mp hx with hxc | hx2
        · subst hxc
          exact h.2 _ (List.mem_cons_self _ _)
        rcases List.mem_cons.mp hx2 with hxr | hx3
        · subst hxr
          exact le_trans (h.2 _ (List.mem_cons_self _ _)) (not_lt.mp hrc)
        · exact h.2 _ (List.mem_cons_of_mem _ hx3)

theorem argminManhattan_spec {u v : ℚ} {l : List JoinedRow} {r : JoinedRow}
    (h : argminManhattan u v l = some r) :
    r ∈ l ∧ ∀ x ∈ l, manhattan u v r ≤ manhattan u v x := by
  cases l with
  | nil => simp [argminManhattan] at h
  | cons a as =>
    simp only [argminManhattan, Option.some.injEq] at h
    subst h
    exact argminFrom_spec u v as a

/-- Forward characterization of a non-null current-location result. -/
theorem get_current_some {db : DB} {u v rad : ℚ} {c : ScoredCandidate}
    (h : get_current_ap_status db u v rad = some c) :
    ∃ r ∈ locatedRows db,
      (∀ x ∈ locatedRows db, manhattan u v r ≤ manhattan u v x) ∧
        r.latitude ≠ 0 ∧ r.longitude ≠ 0 ∧
        haversine_distance u v r.latitude r.longitude ≤ (rad : ℝ) ∧
        c = mkCandidate r (haversine_distance u v r.latitude r.longitude) := by
  unfold get_current_ap_status at h
  cases harg : argminManhattan u v (locatedRows db) with
  | none => rw [harg] at h; simp at h
  | some r =>
    rw [harg] at h
    simp only at h
    by_cases h1 : r.latitude ≠ 0 ∧ r.longitude ≠ 0
    · rw [if_pos h1] at h
      by_cases h2 : haversine_distance u v r.latitude r.longitude ≤ (rad : ℝ)
      · rw [if_pos h2] at h
        simp only [Option.some.injEq] at h
        obtain ⟨hmem, hmin⟩ := argminManhattan_spec harg
        exact ⟨r, hmem, hmin, h1.1, h1.2, h2, h.symm⟩
      · rw [if_neg h2] at h; simp at h
    · rw [if_neg h1] at h; simp at h

/-- The mirror direction: when the Manhattan-closest row fails the
haversine radius check, the resolver returns null. -/
theorem get_current_none_of_far {db : DB} {u v rad : ℚ} {r : JoinedRow}
    (harg : argminManhattan u v (locatedRows db) = some r)
    (hfar : ¬ haversine_distance u v r.latitude r.longitude ≤ (rad : ℝ)) :
    get_current_ap_status db u v rad = none := by
  unfold get_current_ap_status
  rw [harg]
  simp only
  by_cases h1 : r.latitude ≠ 0 ∧ r.longitude ≠ 0
  · rw [if_pos h1, if_neg hfar]
  · rw [if_neg h1]

/-! ## Concrete evaluations on the sample database -/

theorem nearby_dbNoMetrics :
    get_nearby_access_points dbNoMetrics 2 3 100 = [mkCandidate rowA 0] := by
  unfold get_nearby_access_points
  have hloc : locatedRows dbNoMetrics = [rowA] := rfl
  rw [hloc]
  simp only [List.filterMap_cons, List.filterMap_nil]
  rw [if_pos (show rowA.latitude ≠ 0 ∧ rowA.longitude ≠ 0 by norm_num [rowA])]
  have hrla : rowA.latitude = 2 := rfl
  have hrlo : rowA.longitude = 3 := rfl
  rw [hrla, hrlo, haversine_distance_self]
  rw [if_pos (show (0 : ℝ) ≤ ((100 : ℚ) : ℝ) by norm_num)]
  simp [List.insertionSort]

theorem current_dbNoMetrics :
    get_current_ap_status dbNoMetrics 2 3 50 = some (mkCandidate rowA 0) := by
  unfold get_current_ap_status
  have harg : argminManhattan 2 3 (locatedRows dbNoMetrics) = some rowA := rfl
  rw [harg]
  simp only
  rw [if_pos (show rowA.latitude ≠ 0 ∧ rowA.longitude ≠ 0 by norm_num [rowA])]
  have hrla : rowA.latitude = 2 := rfl
  have hrlo : rowA.longitude = 3 := rfl
  rw [hrla, hrlo, haversine_distance_self]
  rw [if_pos (show (0 : ℝ) ≤ ((50 : ℚ) : ℝ) by norm_num)]

theorem pyOr_some_zero (x : ℚ) : pyOr (some x) 0 = x := by
  simp only [pyOr]
  split_ifs with h
  · exact h.symm
  · rfl

theorem pyOr_some_of_ne {x : ℚ} (d : ℚ) (h : x ≠ 0) : pyOr (some x) d = x := by
  simp only [pyOr, if_neg h]

theorem score_mono_aux {a1 a2 b1 b2 c1 c2 d1 d2 e1 e2 : ℚ}
    (ha : a1 ≤ a2) (hb : b1 ≤ b2) (hc : c1 ≤ c2) (hd : d1 ≤ d2) (he : e1 ≤ e2) :
    round2 (35 / 100 * a1 + 15 / 100 * b1 + 2 / 10 * c1 + 2 / 10 * d1 + 1 / 10 * e1) ≤
      round2 (35 / 100 * a2 + 15 / 100 * b2 + 2 / 10 * c2 + 2 / 10 * d2 + 1 / 10 * e2) := by
  apply round2_mono
  linarith

/-! ## Claims -/

/-- C1 counterexample: on the all-defaults record the scorer does not
return 24.1.  The absent signal strength defaults to −80 dBm, whose
normalization is 130 − 80 = 50, not the 41 used in the spec example. -/
theorem C1_counterexample : calculate_quality_score defaultsRecord ≠ 241 / 10 := by
  norm_num [calculate_quality_score, defaultsRecord, pyOr, round2, roundHalfEven]

/-- C1 amended: for the all-defaults input record the quality scorer
returns exactly 25.0 and the status classifier maps that score to
"Poor". -/
theorem C1_amended :
    calculate_quality_score defaultsRecord = 25 ∧
      get_status_from_score (calculate_quality_score defaultsRecord) = "Poor" := by
  have h : calculate_quality_score defaultsRecord = 25 := by
    norm_num [calculate_quality_score, defaultsRecord, pyOr, round2, roundHalfEven]
  refine ⟨h, ?_⟩
  rw [h]
  norm_num [get_status_from_score]

/-- C5: for every metric record with non-negative download, upload,
latency and connected-user values (signal strength unrestricted, any
subset of fields absent), the quality scorer returns a value in the
closed interval [0, 100]. -/
theorem C5_score_in_range (m : MetricData)
    (hd : ∀ x, m.download_speed = some x → 0 ≤ x)
    (hu : ∀ x, m.upload_speed = some x → 0 ≤ x)
    (hl : ∀ x, m.latency = some x → 0 ≤ x)
    (hc : ∀ x, m.connected_users = some x → 0 ≤ x) :
    0 ≤ calculate_quality_score m ∧ calculate_quality_score m ≤ 100 := by
  obtain ⟨ds, us, lat, cu, ss⟩ := m
  dsimp only at hd hu hl hc
  have hd0 : 0 ≤ pyOr ds 0 := by
    cases h : ds with
    | none => simp [pyOr]
    | some x =>
      simp only [pyOr]
      split_ifs
      · norm_num
      · exact hd x h
  have hu0 : 0 ≤ pyOr us 0 := by
    cases h : us with
    | none => simp [pyOr]
    | some x =>
      simp only [pyOr]
      split_ifs
      · norm_num
      · exact hu x h
  have hc0 : 0 ≤ pyOr cu 0 := by
    cases h : cu with
    | none => simp [pyOr]
    | some x =>
      simp only [pyOr]
      split_ifs
      · norm_num
      · exact hc x h
  simp only [calculate_quality_score]
  have h1a : 0 ≤ min (pyOr ds 0 / 100 * 100) 100 :=
    le_min (mul_nonneg (div_nonneg hd0 (by norm_num)) (by norm_num)) (by norm_num)
  have h1b : min (pyOr ds 0 / 100 * 100) 100 ≤ 100 := min_le_right _ _
  have h2a : 0 ≤ min (pyOr us 0 / 50 * 100) 100 :=
    le_min (mul_nonneg (div_nonneg hu0 (by norm_num)) (by norm_num)) (by norm_num)
  have h2b : min (pyOr us 0 / 50 * 100) 100 ≤ 100 := min_le_right _ _
  have h4a : 0 ≤ max (100 - min (pyOr cu 0) 50 * (3 / 2)) 0 := le_max_right _ _
  have h4b : max (100 - min (pyOr cu 0) 50 * (3 / 2)) 0 ≤ 100 := by
    apply max_le _ (by norm_num)
    have hmin : 0 ≤ min (pyOr cu 0) 50 := le_min hc0 (by norm_num)
    linarith
  have h5a : 0 ≤ max 0 (min 100 (130 + pyOr ss (-80))) := le_max_left _ _
  have h5b : max 0 (min 100 (130 + pyOr ss (-80))) ≤ 100 :=
    max_le (by norm_num) (min_le_left _ _)
  cases lat with
  | none =>
    dsimp only
    constructor
    · apply round2_nonneg
      linarith
    · apply round2_le_100
      linarith
  | some l =>
    have hl0 : 0 ≤ l := hl l rfl
    dsimp only
    by_cases hz : l = 0
    · rw [if_pos hz]
      constructor
      · apply round2_nonneg
        linarith
      · apply round2_le_100
        linarith
    · rw [if_neg hz]
      have h3a : 0 ≤ max ((1000 - min (l * 1000) 1000) / 10) 0 := le_max_right _ _
      have h3b : max ((1000 - min (l * 1000) 1000) / 10) 0 ≤ 100 := by
        apply max_le _ (by norm_num)
        have hmin : 0 ≤ min (l * 1000) 1000 :=
          le_min (mul_nonneg hl0 (by norm_num)) (by norm_num)
        linarith
      constructor
      · apply round2_nonneg
        linarith
      · apply round2_le_100
        linarith

/-- C5 witness: the range theorem applied to the record with every field
absent, whose score is 25. -/
theorem C5_witness :
    0 ≤ calculate_quality_score noData ∧ calculate_quality_score noData ≤ 100 :=
  C5_score_in_range noData (by simp [noData]) (by simp [noData]) (by simp [noData])
    (by simp [noData])

/-- C6 counterexample: the score is not monotonically non-increasing in
latency.  Two records differing only in latency, 0 s versus 0.5 s: the
Python `or` treats the value 0 as falsy, replaces it with the worst-case
infinite default, and the record with the larger latency gets the
strictly larger score (25 < 35). -/
theorem C6_counterexample :
    (0 : ℚ) < 1 / 2 ∧
      calculate_quality_score ⟨none, none, some 0, none, none⟩ <
        calculate_quality_score ⟨none, none, some (1 / 2), none, none⟩ := by
  constructor
  · norm_num
  · norm_num [calculate_quality_score, pyOr, round2, roundHalfEven]

/-- C6 amended: holding all other fields fixed, the quality score is
monotonically non-decreasing in download throughput and upload
throughput, monotonically non-increasing in connected-user count, and
monotone as claimed in latency and signal strength only away from the
falsy value 0: non-increasing in latency over strictly positive
latencies, and non-decreasing in signal strength over nonzero signal
values (a latency or signal equal to 0 is treated as absent and scored
with the worst-case default). -/
theorem C6_amended (m : MetricData) (v w : ℚ) (hvw : v ≤ w) :
    (calculate_quality_score { m with download_speed := some v } ≤
        calculate_quality_score { m with download_speed := some w }) ∧
      (calculate_quality_score { m with upload_speed := some v } ≤
        calculate_quality_score { m with upload_speed := some w }) ∧
      (calculate_quality_score { m with connected_users := some w } ≤
        calculate_quality_score { m with connected_users := some v }) ∧
      (0 < v →
        calculate_quality_score { m with latency := some w } ≤
          calculate_quality_score { m with latency := some v }) ∧
      (v ≠ 0 → w ≠ 0 →
        calculate_quality_score { m with signal_strength := some v } ≤
          calculate_quality_score { m with signal_strength := some w }) := by
  obtain ⟨ds, us, lat, cu, ss⟩ := m
  refine ⟨?_, ?_, ?_, ?_, ?_⟩
  · simp only [calculate_quality_score]
    simp only [pyOr_some_zero]
    have h : min (v / 100 * 100) 100 ≤ min (w / 100 * 100) 100 := by
      apply min_le_min _ le_rfl
      linarith
    exact score_mono_aux h le_rfl le_rfl le_rfl le_rfl
  · simp only [calculate_quality_score]
    simp only [pyOr_some_zero]
    have h : min (v / 50 * 100) 100 ≤ min (w / 50 * 100) 100 := by
      apply min_le_min _ le_rfl
      linarith
    exact score_mono_aux le_rfl h le_rfl le_rfl le_rfl
  · simp only [calculate_quality_score]
    simp only [pyOr_some_zero]
    have h : max (100 - min w 50 * (3 / 2)) 0 ≤ max (100 - min v 50 * (3 / 2)) 0 := by
      apply max_le_max _ le_rfl
      have hm : min v 50 ≤ min w 50 := min_le_min hvw le_rfl
      linarith
    exact score_mono_aux le_rfl le_rfl le_rfl h le_rfl
  · intro hv
    have hv0 : v ≠ 0 := ne_of_gt hv
    have hw0 : w ≠ 0 := ne_of_gt (lt_of_lt_of_le hv hvw)
    simp only [calculate_quality_score]
    rw [if_neg hw0, if_neg hv0]
    have h : max ((1000 - min (w * 1000) 1000) / 10) 0 ≤
        max ((1000 - min (v * 1000) 1000) / 10) 0 := by
      apply max_le_max _ le_rfl
      have hm : min (v * 1000) 1000 ≤ min (w * 1000) 1000 :=
        min_le_min (by linarith) le_rfl
      linarith
    exact score_mono_aux le_rfl le_rfl h le_rfl le_rfl
  · intro hv0 hw0
    simp only [calculate_quality_score]
    rw [pyOr_some_of_ne _ hv0, pyOr_some_of_ne _ hw0]
    have h : max 0 (min 100 (130 + v)) ≤ max 0 (min 100 (130 + w)) := by
      apply max_le_max le_rfl
      apply min_le_min le_rfl
      linarith
    exact score_mono_aux le_rfl le_rfl le_rfl le_rfl h

/-- C6 witness: the amended monotonicity theorem applied to concrete
records with the otherwise-absent base record and field values 1 ≤ 2. -/
theorem C6_witness :
    (calculate_quality_score { noData with download_speed := some 1 } ≤
        calculate_quality_score { noData with download_speed := some 2 }) ∧
      (calculate_quality_score { noData with upload_speed := some 1 } ≤
        calculate_quality_score { noData with upload_speed := some 2 }) ∧
      (calculate_quality_score { noData with connected_users := some 2 } ≤
        calculate_quality_score { noData with connected_users := some 1 }) ∧
      (calculate_quality_score { noData with latency := some 2 } ≤
        calculate_quality_score { noData with latency := some 1 }) ∧
      (calculate_quality_score { noData with signal_strength := some 1 } ≤
        calculate_quality_score { noData with signal_strength := some 2 }) := by
  have h := C6_amended noData 1 2 (by norm_num)
  exact ⟨h.1, h.2.1, h.2.2.1, h.2.2.2.1 (by norm_num), h.2.2.2.2 (by norm_num) (by norm_num)⟩

/-- C8: the advisory message follows the decision table evaluated
top-to-bottom: no current access point gives the could-not-detect
message; current score < 40 with recommendations names the top
recommendation and its throughput; current score in [40, 60) with a
strictly better top recommendation suggests it by name, otherwise states
the current location is among the best (with recommendations) or likely
the best (without); current score ≥ 60 congratulates the user regardless
of recommendations. -/
theorem C8_advice_decision_table (c : ScoredCandidate) (recs : List ScoredCandidate) :
    generate_advice_message none recs = .couldNotDetect ∧
      (∀ best rest, recs = best :: rest → c.quality_score < 40 →
        generate_advice_message (some c) recs =
          .poorBest c.status best.ap.building best.ap.floor best.ap.ap_name
            (pyOr best.data.download_speed 0)) ∧
      (recs = [] → c.quality_score < 40 →
        generate_advice_message (some c) recs = .poorNoOptions c.status) ∧
      (∀ best rest, recs = best :: rest → 40 ≤ c.quality_score → c.quality_score < 60 →
        c.quality_score < best.quality_score →
        generate_advice_message (some c) recs =
          .betterAt c.status best.ap.building best.ap.floor best.ap.ap_name) ∧
      (∀ best rest, recs = best :: rest → 40 ≤ c.quality_score → c.quality_score < 60 →
        best.quality_score ≤ c.quality_score →
        generate_advice_message (some c) recs = .amongBest c.status) ∧
      (recs = [] → 40 ≤ c.quality_score → c.quality_score < 60 →
        generate_advice_message (some c) recs = .likelyBest c.status) ∧
      (60 ≤ c.quality_score →
        generate_advice_message (some c) recs = .enjoyFast c.status) := by
  refine ⟨rfl, ?_, ?_, ?_, ?_, ?_, ?_⟩
  · intro best rest hr h40
    subst hr
    simp only [generate_advice_message]
    rw [if_pos h40]
  · intro hr h40
    subst hr
    simp only [generate_advice_message]
    rw [if_pos h40]
  · intro best rest hr h40 h60 hb
    subst hr
    simp only [generate_advice_message]
    rw [if_neg (not_lt.mpr h40), if_pos h60, if_pos hb]
  · intro best rest hr h40 h60 hb
    subst hr
    simp only [generate_advice_message]
    rw [if_neg (not_lt.mpr h40), if_pos h60, if_neg (not_lt.mpr hb)]
  · intro hr h40 h60
    subst hr
    simp only [generate_advice_message]
    rw [if_neg (not_lt.mpr h40), if_pos h60]
  · intro h60
    simp only [generate_advice_message]
    rw [if_neg (not_lt.mpr (by linarith)), if_neg (not_lt.mpr h60)]

/-- C8 witness: a Poor current access point (score 35) with one Good
recommendation (score 70, 80 Mbps download) produces the message naming
that recommendation and its throughput. -/
theorem C8_witness :
    generate_advice_message (some candPoor) [candGood] =
      .poorBest "Poor" "Library" 2 "AP-A" 80 := by
  have h := (C8_advice_decision_table candPoor [candGood]).2.1 candGood [] rfl
    (by norm_num [candPoor])
  simpa [candPoor, candGood, apA, pyOr] using h

/-- C9: every candidate returned by the nearby search has haversine
distance (Earth radius 6,371,000 m) to the user at most the requested
radius. -/
theorem C9_nearby_within_radius (db : DB) (u v rad : ℚ) (c : ScoredCandidate)
    (hc : c ∈ get_nearby_access_points db u v rad) :
    haversine_distance u v c.latitude c.longitude ≤ (rad : ℝ) := by
  obtain ⟨r, _, _, _, hd, hceq⟩ := mem_nearby_iff.mp hc
  subst hceq
  simpa [mkCandidate] using hd

/-- C9 witness: the radius theorem applied to the sample database, whose
single access point sits exactly at the user position. -/
theorem C9_witness : haversine_distance 2 3 2 3 ≤ ((100 : ℚ) : ℝ) :=
  C9_nearby_within_radius dbNoMetrics 2 3 100 (mkCandidate rowA 0)
    (by rw [nearby_dbNoMetrics]; exact List.mem_singleton.mpr rfl)

/-- C10: a candidate returned by the nearby search or resolved as the
current location always has nonzero stored coordinates: an access point
whose stored latitude or longitude equals 0 is never returned, even when
both coordinates are recorded — the Python truthiness check treats the
coordinate value 0 the same as an absent coordinate. -/
theorem C10_zero_coordinate_excluded (db : DB) (u v rad : ℚ) (c : ScoredCandidate)
    (h : c ∈ get_nearby_access_points db u v rad ∨
      get_current_ap_status db u v rad = some c) :
    c.latitude ≠ 0 ∧ c.longitude ≠ 0 ∧
      c.ap.latitude = some c.latitude ∧ c.ap.longitude = some c.longitude := by
  rcases h with h | h
  · obtain ⟨r, hr, hla, hlo, _, hceq⟩ := mem_nearby_iff.mp h
    obtain ⟨_, hstla, hstlo, _⟩ := mem_locatedRows hr
    subst hceq
    exact ⟨hla, hlo, hstla, hstlo⟩
  · obtain ⟨r, hr, _, hla, hlo, _, hceq⟩ := get_current_some h
    obtain ⟨_, hstla, hstlo, _⟩ := mem_locatedRows hr
    subst hceq
    exact ⟨hla, hlo, hstla, hstlo⟩

/-- C10 witness: the exclusion theorem applied to the sample database
candidate at coordinates (2, 3). -/
theorem C10_witness :
    (2 : ℚ) ≠ 0 ∧ (3 : ℚ) ≠ 0 ∧ apA.latitude = some 2 ∧ apA.longitude = some 3 :=
  C10_zero_coordinate_excluded dbNoMetrics 2 3 100 (mkCandidate rowA 0)
    (Or.inl (by rw [nearby_dbNoMetrics]; exact List.mem_singleton.mpr rfl))

/-- C2 counterexample: an access point with location but no performance
metrics at all is returned by the nearby search, scored with the
worst-case defaults (score 25), rather than excluded. -/
theorem C2_counterexample :
    dbNoMetrics.performance_metrics = [] ∧
      latestMetric dbNoMetrics.performance_metrics apA.id = none ∧
      (get_nearby_access_points dbNoMetrics 2 3 100).map
          (fun c => (c.ap.id, c.quality_score)) = [(1, 25)] := by
  refine ⟨rfl, rfl, ?_⟩
  rw [nearby_dbNoMetrics]
  simp [mkCandidate, rowA, apA, rowData, score_noData]

/-- C2 amended: the nearby search returns only access points that have
both latitude and longitude recorded, but it does not require a latest
Metric Record: an access point with location, nonzero coordinates and no
metrics at all that lies within the radius is included, scored with the
all-default score 25. -/
theorem C2_amended (db : DB) (u v rad : ℚ) :
    (∀ c ∈ get_nearby_access_points db u v rad,
        c.ap.latitude = some c.latitude ∧ c.ap.longitude = some c.longitude) ∧
      (∀ ap la lo, ap ∈ db.access_points → ap.latitude = some la →
        ap.longitude = some lo → la ≠ 0 → lo ≠ 0 →
        haversine_distance u v la lo ≤ (rad : ℝ) →
        latestMetric db.performance_metrics ap.id = none →
        ∃ c ∈ get_nearby_access_points db u v rad,
          c.ap = ap ∧ c.quality_score = 25) := by
  constructor
  · intro c hc
    obtain ⟨r, hr, _, _, _, hceq⟩ := mem_nearby_iff.mp hc
    obtain ⟨_, hstla, hstlo, _⟩ := mem_locatedRows hr
    subst hceq
    exact ⟨hstla, hstlo⟩
  · intro ap la lo hap hla hlo hla0 hlo0 hdist hnometric
    have hrow := locatedRows_mem hap hla hlo
    rw [hnometric] at hrow
    refine ⟨mkCandidate ⟨ap, la, lo, none⟩ (haversine_distance u v la lo), ?_, rfl, ?_⟩
    · exact mem_nearby_iff.mpr ⟨⟨ap, la, lo, none⟩, hrow, hla0, hlo0, hdist, rfl⟩
    · show calculate_quality_score (rowData none) = 25
      exact score_noData

/-- C2 witness: the amended theorem applied to the sample database whose
single access point has no metrics: it is included with score 25. -/
theorem C2_witness :
    ∃ c ∈ get_nearby_access_points dbNoMetrics 2 3 100,
      c.ap = apA ∧ c.quality_score = 25 :=
  (C2_amended dbNoMetrics 2 3 100).2 apA 2 3 (by simp [dbNoMetrics])
    rfl rfl (by norm_num) (by norm_num)
    (by rw [haversine_distance_self]; norm_num) rfl

/-- C7 counterexample: the current-location resolver does not restrict
its selection to access points with a latest Metric Record.  In a
database whose single located access point has no metrics at all, the
resolver returns that access point, scored from entirely absent data,
instead of returning null. -/
theorem C7_counterexample :
    dbNoMetrics.performance_metrics = [] ∧
      (get_current_ap_status dbNoMetrics 2 3 50).map (fun c => (c.ap.id, c.data)) =
        some (1, noData) := by
  refine ⟨rfl, ?_⟩
  rw [current_dbNoMetrics]
  simp [mkCandidate, rowA, apA, rowData]

/-- C7 amended: the resolver selects a Manhattan-distance minimizer among
all located access points — with or without a latest Metric Record, a
metric-less one being scored with defaults — and returns it as a Scored
Candidate only if its haversine distance is at most the radius; when the
selected closest row fails that check the resolver returns null, even if
some other access point lies within the radius. -/
theorem C7_amended (db : DB) (u v rad : ℚ) :
    (∀ c, get_current_ap_status db u v rad = some c →
        ∃ r ∈ locatedRows db,
          (∀ x ∈ locatedRows db, manhattan u v r ≤ manhattan u v x) ∧
            haversine_distance u v c.latitude c.longitude ≤ (rad : ℝ) ∧
            c = mkCandidate r (haversine_distance u v r.latitude r.longitude)) ∧
      (∀ r, argminManhattan u v (locatedRows db) = some r →
        ¬ haversine_distance u v r.latitude r.longitude ≤ (rad : ℝ) →
        get_current_ap_status db u v rad = none) := by
  constructor
  · intro c hc
    obtain ⟨r, hr, hmin, _, _, hd, hceq⟩ := get_current_some hc
    refine ⟨r, hr, hmin, ?_, hceq⟩
    subst hceq
    simpa [mkCandidate] using hd
  · intro r harg hfar
    exact get_current_none_of_far harg hfar

/-- C7 witness: the amended theorem applied to the sample database, whose
single (metric-less) access point is resolved as the current location. -/
theorem C7_witness :
    ∃ r ∈ locatedRows dbNoMetrics,
      (∀ x ∈ locatedRows dbNoMetrics, manhattan 2 3 r ≤ manhattan 2 3 x) ∧
        haversine_distance 2 3 2 3 ≤ ((50 : ℚ) : ℝ) ∧
        mkCandidate rowA 0 = mkCandidate r (haversine_distance 2 3 r.latitude r.longitude) :=
  (C7_amended dbNoMetrics 2 3 50).1 (mkCandidate rowA 0) current_dbNoMetrics

/-- C3 counterexample: a latitude of 200 is outside [-90, 90], yet the
recommendation composer performs no validation and returns a
normally-shaped result rather than an input error. -/
theorem C3_counterexample :
    generate_recommendations emptyDB 200 0 1000 5 =
      ⟨200, 0, none, [], 0, AdviceMessage.couldNotDetect⟩ := rfl

/-- C3 amended: neither the nearby search nor the recommendation composer
validates its input; invalid values flow through the normal computation
and produce a normally-shaped result.  In particular, for a negative
radius the nearby list is empty (no non-negative distance is below a
negative bound), and the composer still returns a summary echoing the
input coordinates. -/
theorem C3_amended (db : DB) (u v rad : ℚ) (n : ℤ) (hrad : rad < 0) :
    get_nearby_access_points db u v rad = [] ∧
      (generate_recommendations db u v rad n).user_latitude = u ∧
      (generate_recommendations db u v rad n).user_longitude = v ∧
      (generate_recommendations db u v rad n).recommendations = [] ∧
      (generate_recommendations db u v rad n).total_nearby_aps = 0 := by
  have hnear : get_nearby_access_points db u v rad = [] := by
    rw [List.eq_nil_iff_forall_not_mem]
    intro c hc
    obtain ⟨r, _, _, _, hd, _⟩ := mem_nearby_iff.mp hc
    have h0 := haversine_distance_nonneg u v r.latitude r.longitude
    have hcast : ((rad : ℚ) : ℝ) < 0 := by exact_mod_cast hrad
    linarith
  have hrec : generate_recommendations db u v rad n =
      { user_latitude := u
        user_longitude := v
        current_ap := get_current_ap_status db u v 50
        recommendations := []
        total_nearby_aps := 0
        message := generate_advice_message (get_current_ap_status db u v 50) [] } := by
    unfold generate_recommendations
    rw [hnear]
    cases get_current_ap_status db u v 50 with
    | none => simp [pySlice]
    | some cur => simp [pySlice]
  exact ⟨hnear, by rw [hrec], by rw [hrec], by rw [hrec], by rw [hrec]⟩

/-- C3 witness: the no-validation theorem applied to the sample database
with the negative radius −1. -/
theorem C3_witness :
    get_nearby_access_points dbNoMetrics 2 3 (-1) = [] ∧
      (generate_recommendations dbNoMetrics 2 3 (-1) 5).user_latitude = 2 ∧
      (generate_recommendations dbNoMetrics 2 3 (-1) 5).user_longitude = 3 ∧
      (generate_recommendations dbNoMetrics 2 3 (-1) 5).recommendations = [] ∧
      (generate_recommendations dbNoMetrics 2 3 (-1) 5).total_nearby_aps = 0 :=
  C3_amended dbNoMetrics 2 3 (-1) 5 (by norm_num)

/-- C4 counterexample: with a single access point that is both the
resolved current location and the only candidate within the radius,
`total_nearby_aps` is 0 although one candidate (the current one) was
found within the radius. -/
theorem C4_counterexample :
    (generate_recommendations dbNoMetrics 2 3 100 5).total_nearby_aps = 0 ∧
      (generate_recommendations dbNoMetrics 2 3 100 5).current_ap.isSome = true ∧
      (get_nearby_access_points dbNoMetrics 2 3 100).length = 1 := by
  refine ⟨?_, ?_, ?_⟩
  · unfold generate_recommendations
    rw [current_dbNoMetrics, nearby_dbNoMetrics]
    simp [mkCandidate, rowA, apA]
  · unfold generate_recommendations
    rw [current_dbNoMetrics]
    simp
  · rw [nearby_dbNoMetrics]
    rfl

/-- C4 amended: `total_nearby_aps` counts the candidates found within the
radius after the resolved current-location candidate (matched by access
point id) has been removed; the current-location candidate is not
included in the count. -/
theorem C4_amended (db : DB) (u v rad : ℚ) (n : ℤ) :
    (generate_recommendations db u v rad n).total_nearby_aps =
      (match get_current_ap_status db u v 50 with
        | none => get_nearby_access_points db u v rad
        | some cur =>
          (get_nearby_access_points db u v rad).filter
            (fun ap => ap.ap.id ≠ cur.ap.id)).length := by
  unfold generate_recommendations
  cases get_current_ap_status db u v 50 <;> rfl

end WifiMonitor
